import Mathlib

/-!
Shallow embedding of `libsel4vmmplatsupport/src/arch/arm/guest_image.c`
(guest boot-artifact loading for the seL4 ARM VMM).

Modelling conventions:
* Machine bytes are `Nat` values `< 256`; a header buffer is a function
  `Nat → Nat` from byte offset to byte value.  The target is little-endian
  (ARM as configured for this library), so multi-byte struct fields read
  from a buffer are little-endian reassemblies of the underlying bytes.
* `uintptr_t` arithmetic that can wrap is taken modulo `2 ^ 64`.
* Fallible C paths (`return -1` / returning the `0` address sentinel) are
  embedded as `Except` values; each distinct error exit of the C code gets
  its own error constructor (the exits are observably distinct through
  their `ZF_LOGE` diagnostics).
* Externally-provided behaviour (the file descriptor's read results, the
  memory manager, the cache/capability layer) is supplied by oracle fields
  in the `ByteSource` and `VM` structures, and every externally visible
  action is recorded in an event trace so that ordering and resource
  (file-descriptor) obligations can be stated.
-/

namespace GuestImage

/-- Little-endian 16-bit read of a byte buffer at offset `off`
(how a `uint16_t` struct field at that offset is read on the target). -/
def readLE16 (h : Nat → Nat) (off : Nat) : Nat :=
  h off + 256 * h (off + 1)

/-- Little-endian 32-bit read of a byte buffer at offset `off`
(how a `uint32_t` struct field at that offset is read on the target). -/
def readLE32 (h : Nat → Nat) (off : Nat) : Nat :=
  h off + 256 * h (off + 1) + 65536 * h (off + 2) + 16777216 * h (off + 3)

/-- `#define UIMAGE_MAGIC 0x56190527` (guest_image.c line 25). -/
def UIMAGE_MAGIC : Nat := 0x56190527

/-- `#define ZIMAGE_MAGIC 0x016F2818` (guest_image.c line 26). -/
def ZIMAGE_MAGIC : Nat := 0x016F2818

/-- `#define DTB_MAGIC 0xedfe0dd0` (guest_image.c line 27). -/
def DTB_MAGIC : Nat := 0xedfe0dd0

/-- `#define INITRD_GZ_MAGIC 0x8b1f` (guest_image.c line 28). -/
def INITRD_GZ_MAGIC : Nat := 0x8b1f

/-- The `enum img_type` values used by guest_image.c
(declared in `sel4vmmplatsupport/guest_image.h`). -/
inductive ImgType
  | IMG_BIN
  | IMG_ELF
  | IMG_ZIMAGE
  | IMG_UIMAGE
  | IMG_DTB
  | IMG_INITRD_GZ
deriving DecidableEq, Repr

/-- Modelled from the spec: `elf_check_magic` lives in the external libelf
library (not in this repository); the spec fixes it as the standard 4-byte
ELF magic `0x7f 'E' 'L' 'F'` at offset 0.  Returns `true` on a match
(the C function returns 0 on a match). -/
def elf_check_magic (h : Nat → Nat) : Bool :=
  h 0 == 0x7f && h 1 == 0x45 && h 2 == 0x4c && h 3 == 0x46

/-- `is_zImage` (guest_image.c lines 64-69): the `magic` field of
`struct zimage_hdr` sits after `uint32_t code[9]`, i.e. at byte offset 36.
`true` means the magic matches (the C function returns 0 on a match). -/
def is_zImage (h : Nat → Nat) : Bool :=
  readLE32 h 36 == ZIMAGE_MAGIC

/-- `is_uImage` (guest_image.c lines 58-62): `memcmp` of the first four
buffer bytes against the in-memory (little-endian) representation of
`UIMAGE_MAGIC = 0x56190527`, which is the byte sequence
`0x27 0x05 0x19 0x56`.  `true` means the bytes match. -/
def is_uImage (h : Nat → Nat) : Bool :=
  h 0 == 0x27 && h 1 == 0x05 && h 2 == 0x19 && h 3 == 0x56

/-- `is_dtb` (guest_image.c lines 71-76): the `magic` field of
`struct dtb_hdr` is a `uint32_t` at offset 0, compared against
`DTB_MAGIC`.  `true` means the magic matches. -/
def is_dtb (h : Nat → Nat) : Bool :=
  readLE32 h 0 == DTB_MAGIC

/-- `is_initrd` (guest_image.c lines 78-84): the `magic` field of
`struct initrd_gz_hdr` is a `uint16_t` at offset 0, compared against
`INITRD_GZ_MAGIC`.  `true` means the magic matches. -/
def is_initrd (h : Nat → Nat) : Bool :=
  readLE16 h 0 == INITRD_GZ_MAGIC

/-- `image_get_type` (guest_image.c lines 86-101): the classification
if-chain, in source order, falling back to `IMG_BIN`. -/
def image_get_type (h : Nat → Nat) : ImgType :=
  if elf_check_magic h then .IMG_ELF
  else if is_zImage h then .IMG_ZIMAGE
  else if is_uImage h then .IMG_UIMAGE
  else if is_dtb h then .IMG_DTB
  else if is_initrd h then .IMG_INITRD_GZ
  else .IMG_BIN

/-- Width of `uintptr_t` on the modelled target. -/
def UINTPTR_MOD : Nat := 2 ^ 64

/-- `zImage_get_load_address` (guest_image.c lines 103-108): the `start`
field of `struct zimage_hdr` is the `uint32_t` at byte offset 40; if it is
non-zero it is returned verbatim, otherwise `ram_base + 0x8000`
(`uintptr_t` arithmetic, hence the modulus). -/
def zImage_get_load_address (h : Nat → Nat) (ram_base : Nat) : Nat :=
  if readLE32 h 40 ≠ 0 then readLE32 h 40 else (ram_base + 0x8000) % UINTPTR_MOD

/-- An artifact as seen through the POSIX-style byte-source used by
guest_image.c.  `openOk` models whether `open` succeeds, `size` the
`lseek(fd, 0, SEEK_END)` result, `bytes` the file contents, and `readLen`
an oracle giving, for a `read` of `req` bytes at file offset `off`, the
number of bytes actually returned (this is where short-read faults are
injected; an honest regular file returns `min req (size - off)`). -/
structure ByteSource where
  openOk : Bool
  size : Nat
  bytes : Nat → Nat
  readLen : Nat → Nat → Nat

/-- The honest regular-file read oracle for a file of `n` bytes. -/
def honestRead (n : Nat) : Nat → Nat → Nat :=
  fun off req => min req (n - off)

/-- The slice of `vm_t` state and of the external collaborators that
guest_image.c observes: the configured guest entry point (`vm->entry`),
the cache-maintenance configuration (`vm->mem.clean_cache`), an oracle for
`vspace_get_cap` succeeding on a written chunk (keyed by the chunk's
offset within the artifact), the result of `vm_ram_mark_allocated`, the
`CONFIG_LIB_SEL4VM_DEFER_MEMORY_MAP` configuration, and the result of
`maybe_map_deferred_pages_at`. -/
structure VM where
  entry : Nat
  clean_cache : Bool
  capOk : Nat → Bool
  allocOk : Bool
  deferConfig : Bool
  deferOk : Bool

/-- Externally visible events of one load call, in order: byte-source
open/close, the `vm_ram_mark_allocated` request (with the external
manager's success/failure reply), the `maybe_map_deferred_pages_at`
request, a `read` of one chunk (requested and returned byte counts), and a
per-page cache clean-and-invalidate. -/
inductive Ev
  | openEv
  | closeEv
  | markAllocated (addr len : Nat) (ok : Bool)
  | mapDeferred (addr len : Nat)
  | readChunk (offset requested returned : Nat)
  | cacheClean (offset : Nat)
deriving DecidableEq, Repr

/-- Typed names for the distinct error exits of the load path (the C code
reports each as `-1`/`0` with a distinguishing `ZF_LOGE` diagnostic). -/
inductive LoadErr
  | ArtifactNotFound
  | ArtifactUnreadable
  | EmptyArtifact
  | UnsupportedFormat
  | DeferredMappingFailed
  | TruncatedRead
  | CacheMaintenanceTargetMissing
deriving DecidableEq, Repr

/-- Typed names for the two error exits of `get_guest_image_type`. -/
inductive ClassifyErr
  | OpenFailed
  | HeaderReadFailed
deriving DecidableEq, Repr

/-- `PAGE_SIZE_4K`. -/
def PAGE_SIZE_4K : Nat := 4096

/-- `ROUND_UP(x, n)` for the page size used here. -/
def ROUND_UP (x n : Nat) : Nat := ((x + n - 1) / n) * n

/-- Chunk decomposition worker, by fuel (each step consumes at least one
byte, so `fuel = remaining` suffices; fuel keeps the recursion structural
and hence kernel-reducible).  Produces `(offset, length)` pairs. -/
def chunkGo : Nat → Nat → Nat → Nat → List (Nat × Nat)
  | 0, _, _, _ => []
  | fuel + 1, offset, remaining, pageRem =>
    if remaining = 0 then []
    else
      (offset, max 1 (min remaining pageRem)) ::
        chunkGo fuel (offset + max 1 (min remaining pageRem))
          (remaining - max 1 (min remaining pageRem)) PAGE_SIZE_4K

/-- Modelled from the spec: `vm_ram_touch` (libsel4vm, outside `src/`)
walks `[addr, addr + size)` splitting at 4 KiB page boundaries and hands
the callback each chunk together with its offset within the artifact.
`chunkList 0 size (4096 - addr % 4096)` is that chunk sequence, as
`(offset-within-artifact, length)` pairs. -/
def chunkList (offset remaining pageRem : Nat) : List (Nat × Nat) :=
  chunkGo remaining offset remaining pageRem

/-- `guest_write_address` (guest_image.c lines 130-152) on one chunk:
`read` the chunk from the file descriptor (the descriptor's position
equals the chunk's offset, since every earlier chunk was read in full); a
short read fails; with `clean_cache` set, a failed `vspace_get_cap`
lookup fails, otherwise the page is cleaned and invalidated.  (The
`seL4_ARM_Page_CleanInvalidate_Data` call itself is `ZF_LOGF_IFERR`,
i.e. process-fatal rather than a returned error, so it has no error
value here.) -/
def guestWriteStep (vm : VM) (src : ByteSource) (off sz : Nat) :
    Except LoadErr Unit × List Ev :=
  let len := src.readLen off sz
  if len ≠ sz then (.error .TruncatedRead, [.readChunk off sz len])
  else if vm.clean_cache && !vm.capOk off then
    (.error .CacheMaintenanceTargetMissing, [.readChunk off sz len])
  else
    (.ok (), [Ev.readChunk off sz len] ++
      if vm.clean_cache then [Ev.cacheClean off] else [])

/-- Modelled from the spec: the chunk iteration of `vm_ram_touch`
(libsel4vm, outside `src/`), invoking `guest_write_address` on each chunk
in ascending offset order and stopping at the first failure. -/
def touchGo (vm : VM) (src : ByteSource) : List (Nat × Nat) → Except LoadErr Unit × List Ev
  | [] => (.ok (), [])
  | (off, sz) :: rest =>
    match guestWriteStep vm src off sz with
    | (.error e, evs) => (.error e, evs)
    | (.ok _, evs) =>
      let r := touchGo vm src rest
      (r.fst, evs ++ r.snd)

/-- Modelled from the spec: `vm_ram_touch vm addr size callback`
(libsel4vm, outside `src/`), with `guest_write_address` as the callback. -/
def vm_ram_touch (vm : VM) (src : ByteSource) (addr size : Nat) :
    Except LoadErr Unit × List Ev :=
  touchGo vm src (chunkList 0 size (PAGE_SIZE_4K - addr % PAGE_SIZE_4K))

/-- `load_image` (guest_image.c lines 154-197).  Faithful to the source's
exit paths, including its file-descriptor handling: the zero-size exit
(line 170) and the deferred-mapping-failure exit (line 184) return
without `close(fd)`, so those traces carry no `closeEv`; the
`vm_ram_touch`-failure exit (line 191) and the success exit (line 195)
do close.  `vm_ram_mark_allocated` is invoked with the result discarded
(line 173), recorded as a `markAllocated` event carrying the external
manager's reply. -/
def load_image (vm : VM) (src : ByteSource) (load_addr : Nat) :
    Except LoadErr Nat × List Ev :=
  if !src.openOk then (.error .ArtifactNotFound, [])
  else if src.size = 0 then (.error .EmptyArtifact, [Ev.openEv])
  else
    let allocEv := Ev.markAllocated load_addr (ROUND_UP src.size PAGE_SIZE_4K) vm.allocOk
    if vm.deferConfig && !vm.deferOk then
      (.error .DeferredMappingFailed,
        [Ev.openEv, allocEv, Ev.mapDeferred load_addr src.size])
    else
      let deferEvs := if vm.deferConfig then [Ev.mapDeferred load_addr src.size] else []
      let t := vm_ram_touch vm src load_addr src.size
      (match t.fst with
       | .error e => .error e
       | .ok _ => .ok src.size,
       [Ev.openEv, allocEv] ++ deferEvs ++ t.snd ++ [Ev.closeEv])

/-- `get_guest_image_type` (guest_image.c lines 110-128): open the image,
read `sizeof(Elf64_Ehdr) = 64` bytes into the caller's zero-initialised
header buffer, fail if fewer than 64 bytes come back (closing the
descriptor), otherwise classify the buffer (which then holds the first 64
file bytes) and close the descriptor. -/
def get_guest_image_type (src : ByteSource) : Except ClassifyErr ImgType × List Ev :=
  if !src.openOk then (.error .OpenFailed, [])
  else if src.readLen 0 64 ≠ 64 then
    (.error .HeaderReadFailed, [Ev.openEv, Ev.closeEv])
  else (.ok (image_get_type src.bytes), [Ev.openEv, Ev.closeEv])

/-- The kernel-role switch of `load_guest_kernel_image` (guest_image.c
lines 211-221): `IMG_BIN` resolves to the VM's entry point, `IMG_ZIMAGE`
to the zImage rule, everything else falls to the error default. -/
def kernelResolve (t : ImgType) (h : Nat → Nat) (entry base : Nat) : Option Nat :=
  match t with
  | .IMG_BIN => some entry
  | .IMG_ZIMAGE => some (zImage_get_load_address h base)
  | _ => none

/-- The module-role switch of `load_guest_module_image` (guest_image.c
lines 240-248): `IMG_DTB` and `IMG_INITRD_GZ` resolve to the caller's
base address, everything else falls to the error default. -/
def moduleResolve (t : ImgType) (base : Nat) : Option Nat :=
  match t with
  | .IMG_DTB => some base
  | .IMG_INITRD_GZ => some base
  | _ => none

/-- `load_guest_kernel_image` (guest_image.c lines 199-227) with its
distinct exit paths kept as typed errors (the C function collapses all of
them to the address value `0`; see `load_guest_kernel_image` below for
that collapse). -/
def loadGuestKernelImageE (vm : VM) (src : ByteSource) (base : Nat) :
    Except LoadErr (Nat × Nat) × List Ev :=
  match get_guest_image_type src with
  | (.error _, evs) => (.error .ArtifactUnreadable, evs)
  | (.ok t, evs) =>
    match kernelResolve t src.bytes vm.entry base with
    | none => (.error .UnsupportedFormat, evs)
    | some addr =>
      (match (load_image vm src addr).fst with
       | .error e => .error e
       | .ok sz => .ok (addr, sz),
       evs ++ (load_image vm src addr).snd)

/-- `load_guest_module_image` (guest_image.c lines 229-254), typed-error
form. -/
def loadGuestModuleImageE (vm : VM) (src : ByteSource) (base : Nat) :
    Except LoadErr (Nat × Nat) × List Ev :=
  match get_guest_image_type src with
  | (.error _, evs) => (.error .ArtifactUnreadable, evs)
  | (.ok t, evs) =>
    match moduleResolve t base with
    | none => (.error .UnsupportedFormat, evs)
    | some addr =>
      (match (load_image vm src addr).fst with
       | .error e => .error e
       | .ok sz => .ok (addr, sz),
       evs ++ (load_image vm src addr).snd)

/-- `load_guest_kernel_image` as its C signature has it: a `uintptr_t`
return that is `0` on every failure and the resolved load address on
success, plus the `*image_size` out-parameter (written only when
`load_image` succeeded) and the event trace. -/
def load_guest_kernel_image (vm : VM) (src : ByteSource) (base : Nat) :
    Nat × Option Nat × List Ev :=
  match loadGuestKernelImageE vm src base with
  | (.error _, evs) => (0, none, evs)
  | (.ok (addr, sz), evs) => (addr, some sz, evs)

/-- `load_guest_module_image`, `uintptr_t`-return form. -/
def load_guest_module_image (vm : VM) (src : ByteSource) (base : Nat) :
    Nat × Option Nat × List Ev :=
  match loadGuestModuleImageE vm src base with
  | (.error _, evs) => (0, none, evs)
  | (.ok (addr, sz), evs) => (addr, some sz, evs)

/-- `vm_load_guest_kernel` (guest_image.c lines 256-272): reject a null
output descriptor, then treat a `0` address from
`load_guest_kernel_image` as failure (`-1`, descriptor left unwritten);
otherwise write the descriptor and return `0`.  The `alignment` parameter
is accepted and, as in the source, never read. -/
def vm_load_guest_kernel (vm : VM) (src : ByteSource) (load_address alignment : Nat)
    (descProvided : Bool) : Int × Option (Nat × Nat) × List Ev :=
  if !descProvided then (-1, none, [])
  else
    let r := load_guest_kernel_image vm src load_address
    if r.fst = 0 then (-1, none, r.snd.snd)
    else (0, some (r.fst, r.snd.fst.getD 0), r.snd.snd)

/-- `vm_load_guest_module` (guest_image.c lines 274-293), same shape as
the kernel entry point. -/
def vm_load_guest_module (vm : VM) (src : ByteSource) (load_address alignment : Nat)
    (descProvided : Bool) : Int × Option (Nat × Nat) × List Ev :=
  if !descProvided then (-1, none, [])
  else
    let r := load_guest_module_image vm src load_address
    if r.fst = 0 then (-1, none, r.snd.snd)
    else (0, some (r.fst, r.snd.fst.getD 0), r.snd.snd)

/-! Concrete fixtures used by witnesses and counterexamples. -/

/-- A benign VM: cache maintenance off, allocation succeeding, deferred
mapping not configured. -/
def vmW : VM :=
  { entry := 0x40080000, clean_cache := false, capOk := fun _ => true,
    allocOk := true, deferConfig := false, deferOk := true }

/-- A 100-byte all-zero artifact behind an honest regular file. -/
def srcW : ByteSource :=
  { openOk := true, size := 100, bytes := fun _ => 0, readLen := honestRead 100 }

/-- A zero-length artifact behind an honest regular file. -/
def srcEmpty : ByteSource :=
  { openOk := true, size := 0, bytes := fun _ => 0, readLen := honestRead 0 }

/-- A 1-byte artifact behind an honest regular file (shorter than the
64-byte classification header window). -/
def srcShort : ByteSource :=
  { openOk := true, size := 1, bytes := fun _ => 0, readLen := honestRead 1 }

/-- The benign VM with deferred mapping configured and failing. -/
def vmDefer : VM :=
  { vmW with deferConfig := true, deferOk := false }

/-- The benign VM with the external allocation request failing. -/
def vmAllocFail : VM :=
  { vmW with allocOk := false }

/-- The benign VM with a configured entry point of 0. -/
def vmEntry0 : VM :=
  { vmW with entry := 0 }

/-- A 64-byte zImage artifact: magic `0x016F2818` at offset 36, start
field 0 at offset 40. -/
def zImageStart0Bytes : Nat → Nat :=
  fun i =>
    if i = 36 then 0x18 else if i = 37 then 0x28 else
    if i = 38 then 0x6F else if i = 39 then 0x01 else 0

/-! ## Helper lemmas -/

/-- Under the byte-range invariant, the `memcmp`-style byte test of
`is_uImage` coincides with reading a little-endian 32-bit word at offset
0 and comparing it with `UIMAGE_MAGIC`. -/
lemma is_uImage_eq_readLE32 (h : Nat → Nat) (hb : ∀ i, h i < 256) :
    is_uImage h = (readLE32 h 0 == UIMAGE_MAGIC) := by
  have h0 := hb 0
  have h1 := hb 1
  have h2 := hb 2
  have h3 := hb 3
  rw [Bool.eq_iff_iff]
  simp only [is_uImage, readLE32, UIMAGE_MAGIC, Bool.and_eq_true, beq_iff_eq,
    Nat.zero_add]
  constructor
  · rintro ⟨⟨⟨a, b⟩, c⟩, d⟩
    omega
  · intro hEq
    omega

/-! ## C2: zImage load-address rule -/

/-- C2: for every zImage header and base address, a non-zero embedded
start field is used verbatim as the load address; a zero start field
yields `base + 0x8000` (stated below the `uintptr_t` wrap bound). -/
theorem zImage_load_address_rule (h : Nat → Nat) (base : Nat) :
    (readLE32 h 40 ≠ 0 → zImage_get_load_address h base = readLE32 h 40) ∧
    (readLE32 h 40 = 0 → base + 0x8000 < 2 ^ 64 →
      zImage_get_load_address h base = base + 0x8000) := by
  constructor
  · intro hnz
    simp [zImage_get_load_address, hnz]
  · intro hz hlt
    simp only [zImage_get_load_address, hz, ne_eq, not_true_eq_false, if_false,
      UINTPTR_MOD]
    exact Nat.mod_eq_of_lt hlt

/-- Witness for C2: a header with start field 0 at base `0x80000000`
resolves to `0x80008000`. -/
theorem zImage_load_address_rule_witness :
    zImage_get_load_address zImageStart0Bytes 0x80000000 = 0x80000000 + 0x8000 :=
  (zImage_load_address_rule zImageStart0Bytes 0x80000000).2 (by decide) (by norm_num)

/-! ## C3: classification order and signatures -/

/-- Classification as the spec describes it, word for word: ELF magic at
offset 0; then the 32-bit constant `0x016F2818` at the zImage header's
magic offset (byte 36); then `0x56190527` at offset 0; then `0xEDFE0DD0`
read as a little-endian 32-bit word at offset 0; then the 16-bit value
`0x8B1F` at offset 0; first match wins, no match means `RawBinary`
(`IMG_BIN`). -/
def classifySpec (h : Nat → Nat) : ImgType :=
  if elf_check_magic h then .IMG_ELF
  else if readLE32 h 36 == 0x016F2818 then .IMG_ZIMAGE
  else if readLE32 h 0 == 0x56190527 then .IMG_UIMAGE
  else if readLE32 h 0 == 0xEDFE0DD0 then .IMG_DTB
  else if readLE16 h 0 == 0x8B1F then .IMG_INITRD_GZ
  else .IMG_BIN

/-- C3: on every buffer of machine bytes, the source's classification
if-chain computes exactly the spec's signature test sequence: ELF, then
zImage at the header magic offset, then uImage, then the device-tree
marker, then the gzip magic, first match winning, with `IMG_BIN`
(`RawBinary`) as the fallback. -/
theorem classify_matches_spec (h : Nat → Nat) (hb : ∀ i, h i < 256) :
    image_get_type h = classifySpec h := by
  unfold image_get_type classifySpec
  rw [is_uImage_eq_readLE32 h hb]
  rfl

/-- Witness for C3 at the all-zero buffer. -/
theorem classify_matches_spec_witness :
    image_get_type (fun _ => 0) = classifySpec (fun _ => 0) :=
  classify_matches_spec (fun _ => 0) (fun _ => by norm_num)

/-! ## C5: zero-length artifact -/

/-- C5: a zero-length artifact fails with `EmptyArtifact`, and the trace
shows no allocation request to the external memory manager and no read
or write of any byte before the error return. -/
theorem empty_artifact_no_alloc (vm : VM) (src : ByteSource) (addr : Nat)
    (hopen : src.openOk = true) (hz : src.size = 0) :
    (load_image vm src addr).fst = .error .EmptyArtifact ∧
    (∀ a l b, Ev.markAllocated a l b ∉ (load_image vm src addr).snd) ∧
    (∀ o r t, Ev.readChunk o r t ∉ (load_image vm src addr).snd) := by
  refine ⟨?_, ?_, ?_⟩ <;> simp [load_image, hopen, hz]

/-- Witness for C5 at the concrete empty artifact. -/
theorem empty_artifact_no_alloc_witness :
    (load_image vmW srcEmpty 0x40000000).fst = .error .EmptyArtifact :=
  (empty_artifact_no_alloc vmW srcEmpty 0x40000000 rfl rfl).1

/-! ## C10: the alignment parameter is dead -/

/-- C10: two calls to either public entry point that differ only in the
`alignment` argument return identical results, descriptors and event
traces: the parameter is never read. -/
theorem alignment_has_no_effect (vm : VM) (src : ByteSource)
    (base a1 a2 : Nat) (d : Bool) :
    vm_load_guest_kernel vm src base a1 d = vm_load_guest_kernel vm src base a2 d ∧
    vm_load_guest_module vm src base a1 d = vm_load_guest_module vm src base a2 d :=
  ⟨rfl, rfl⟩

/-! ## C1: per-role format dispatch -/

/-- The behaviour of a kernel/module load once the load address `addr`
has been resolved: the result of `load_image` at `addr` (pairing the
resolved address with the size on success), prefixed by the
classification call's open/close trace. -/
def loadAtAddr (vm : VM) (src : ByteSource) (addr : Nat) :
    Except LoadErr (Nat × Nat) × List Ev :=
  (match (load_image vm src addr).fst with
   | .error e => .error e
   | .ok sz => .ok (addr, sz),
   [Ev.openEv, Ev.closeEv] ++ (load_image vm src addr).snd)

/-- C1: with the header successfully classified, the kernel path loads a
`RawBinary` artifact at the VM's configured entry point and a zImage at
the zImage rule's address, and fails with `UnsupportedFormat` on every
other format with a trace showing no loading at all (only the
classification open/close); the module path loads a `DeviceTree` or
`GzipInitialRamdisk` artifact at the caller's base address verbatim and
fails with `UnsupportedFormat`, again before any loading, on every other
format. -/
theorem facade_format_dispatch (vm : VM) (src : ByteSource) (base : Nat)
    (hopen : src.openOk = true) (hread : src.readLen 0 64 = 64) :
    (image_get_type src.bytes = .IMG_BIN →
      loadGuestKernelImageE vm src base = loadAtAddr vm src vm.entry) ∧
    (image_get_type src.bytes = .IMG_ZIMAGE →
      loadGuestKernelImageE vm src base =
        loadAtAddr vm src (zImage_get_load_address src.bytes base)) ∧
    (image_get_type src.bytes ≠ .IMG_BIN → image_get_type src.bytes ≠ .IMG_ZIMAGE →
      loadGuestKernelImageE vm src base =
        (.error .UnsupportedFormat, [Ev.openEv, Ev.closeEv])) ∧
    (image_get_type src.bytes = .IMG_DTB ∨ image_get_type src.bytes = .IMG_INITRD_GZ →
      loadGuestModuleImageE vm src base = loadAtAddr vm src base) ∧
    (image_get_type src.bytes ≠ .IMG_DTB → image_get_type src.bytes ≠ .IMG_INITRD_GZ →
      loadGuestModuleImageE vm src base =
        (.error .UnsupportedFormat, [Ev.openEv, Ev.closeEv])) := by
  have hty : get_guest_image_type src = (.ok (image_get_type src.bytes),
      [Ev.openEv, Ev.closeEv]) := by
    simp [get_guest_image_type, hopen, hread]
  refine ⟨?_, ?_, ?_, ?_, ?_⟩
  · intro ht
    simp [loadGuestKernelImageE, hty, ht, kernelResolve, loadAtAddr]
  · intro ht
    simp [loadGuestKernelImageE, hty, ht, kernelResolve, loadAtAddr]
  · intro h1 h2
    cases ht : image_get_type src.bytes <;>
      simp [ht] at h1 h2 ⊢ <;>
      simp [loadGuestKernelImageE, hty, ht, kernelResolve]
  · rintro (ht | ht) <;> simp [loadGuestModuleImageE, hty, ht, moduleResolve, loadAtAddr]
  · intro h1 h2
    cases ht : image_get_type src.bytes <;>
      simp [ht] at h1 h2 ⊢ <;>
      simp [loadGuestModuleImageE, hty, ht, moduleResolve]

/-- Witness for C1: the all-zero 100-byte artifact classifies as
`IMG_BIN`, so the kernel path streams it at the VM's entry point. -/
theorem facade_format_dispatch_witness :
    loadGuestKernelImageE vmW srcW 0 = loadAtAddr vmW srcW vmW.entry :=
  (facade_format_dispatch vmW srcW 0 rfl rfl).1 (by decide)

/-! ## C7: artifacts shorter than the header window -/

/-- Counterexample to C7 as stated: the 1-byte artifact is not classified
as `RawBinary`; the header read comes back short and
`get_guest_image_type` fails, so classification never happens. -/
theorem short_artifact_rejected_cex :
    (get_guest_image_type srcShort).fst = .error .HeaderReadFailed ∧
    (get_guest_image_type srcShort).fst ≠ .ok ImgType.IMG_BIN := by
  have h : (get_guest_image_type srcShort).fst = .error .HeaderReadFailed := rfl
  refine ⟨h, ?_⟩
  rw [h]
  simp

/-- C7 amended: for every artifact shorter than the 64-byte header
window (behind an honest byte-source), the header read returns fewer
bytes than requested and the call fails with the header-read error,
closing the descriptor; the truncated artifact is rejected, never
classified. -/
theorem short_artifact_read_error (src : ByteSource) (hopen : src.openOk = true)
    (hhonest : src.readLen 0 64 = min 64 src.size) (hshort : src.size < 64) :
    get_guest_image_type src = (.error .HeaderReadFailed, [Ev.openEv, Ev.closeEv]) := by
  have hne : src.readLen 0 64 ≠ 64 := by
    rw [hhonest]
    omega
  simp [get_guest_image_type, hopen, hne]

/-- Witness for the amended C7 at the concrete 1-byte artifact. -/
theorem short_artifact_read_error_witness :
    get_guest_image_type srcShort = (.error .HeaderReadFailed, [Ev.openEv, Ev.closeEv]) :=
  short_artifact_read_error srcShort rfl rfl (by decide)

/-! ## C8: file-descriptor handling on the error paths -/

/-- C8 (code bug): on the zero-length-artifact exit and on the
deferred-mapping-failure exit, `load_image` returns without closing the
file descriptor it opened — the trace records the open but no close —
contradicting the requirement that the byte-source handle be released on
every exit path. -/
theorem fd_leak_on_error_paths :
    ((load_image vmW srcEmpty 0x40000000).fst = .error .EmptyArtifact ∧
     Ev.openEv ∈ (load_image vmW srcEmpty 0x40000000).snd ∧
     Ev.closeEv ∉ (load_image vmW srcEmpty 0x40000000).snd) ∧
    ((load_image vmDefer srcW 0x40000000).fst = .error .DeferredMappingFailed ∧
     Ev.openEv ∈ (load_image vmDefer srcW 0x40000000).snd ∧
     Ev.closeEv ∉ (load_image vmDefer srcW 0x40000000).snd) := by
  refine ⟨⟨rfl, ?_, ?_⟩, rfl, ?_, ?_⟩ <;> decide

/-! ## C9: address 0 is the internal failure sentinel -/

/-- C9: whenever the internal load returns address 0 — which includes the
case where classification and streaming both succeed but the resolved
address is 0, e.g. a raw binary with a configured entry point of 0 — the
facade returns `-1` and leaves the output descriptor unwritten; and every
successful facade call (`return 0`) carries a descriptor with a non-zero
`load_paddr`.  Both entry points behave identically in this respect. -/
theorem zero_address_failure_sentinel (vm : VM) (src : ByteSource)
    (base align : Nat) :
    ((load_guest_kernel_image vm src base).fst = 0 →
      (vm_load_guest_kernel vm src base align true).fst = -1 ∧
      (vm_load_guest_kernel vm src base align true).snd.fst = none) ∧
    ((vm_load_guest_kernel vm src base align true).fst = 0 →
      ∃ a s, (vm_load_guest_kernel vm src base align true).snd.fst = some (a, s) ∧
        a ≠ 0) ∧
    ((load_guest_module_image vm src base).fst = 0 →
      (vm_load_guest_module vm src base align true).fst = -1 ∧
      (vm_load_guest_module vm src base align true).snd.fst = none) ∧
    ((vm_load_guest_module vm src base align true).fst = 0 →
      ∃ a s, (vm_load_guest_module vm src base align true).snd.fst = some (a, s) ∧
        a ≠ 0) := by
  refine ⟨?_, ?_, ?_, ?_⟩
  · intro h0
    simp [vm_load_guest_kernel, h0]
  · intro hs
    by_cases h0 : (load_guest_kernel_image vm src base).fst = 0
    · simp [vm_load_guest_kernel, h0] at hs
    · exact ⟨(load_guest_kernel_image vm src base).fst,
        (load_guest_kernel_image vm src base).snd.fst.getD 0,
        by simp [vm_load_guest_kernel, h0], h0⟩
  · intro h0
    simp [vm_load_guest_module, h0]
  · intro hs
    by_cases h0 : (load_guest_module_image vm src base).fst = 0
    · simp [vm_load_guest_module, h0] at hs
    · exact ⟨(load_guest_module_image vm src base).fst,
        (load_guest_module_image vm src base).snd.fst.getD 0,
        by simp [vm_load_guest_module, h0], h0⟩

/-- Witness for C9: with a raw-binary artifact, a VM entry point of 0 and
a load that classifies and streams successfully, the kernel facade still
reports failure and leaves the descriptor unwritten. -/
theorem zero_address_failure_sentinel_witness :
    (vm_load_guest_kernel vmEntry0 srcW 0 8 true).fst = -1 ∧
    (vm_load_guest_kernel vmEntry0 srcW 0 8 true).snd.fst = none :=
  (zero_address_failure_sentinel vmEntry0 srcW 0 8).1 (by decide)

/-! ## C4: streaming load and short reads -/

/-- The `(offset, requested)` projection of the chunk-read events of a
trace. -/
def readEvents (l : List Ev) : List (Nat × Nat) :=
  l.filterMap fun e =>
    match e with
    | .readChunk off req _ => some (off, req)
    | _ => none

lemma guestWriteStep_ok (vm : VM) (src : ByteSource) (off sz : Nat)
    (hcache : vm.clean_cache = false) (hr : src.readLen off sz = sz) :
    guestWriteStep vm src off sz = (.ok (), [Ev.readChunk off sz sz]) := by
  simp [guestWriteStep, hr, hcache]

lemma guestWriteStep_short (vm : VM) (src : ByteSource) (off sz : Nat)
    (hr : src.readLen off sz ≠ sz) :
    guestWriteStep vm src off sz =
      (.error .TruncatedRead, [Ev.readChunk off sz (src.readLen off sz)]) := by
  simp [guestWriteStep, hr]

lemma touchGo_ok_iff (vm : VM) (src : ByteSource) (hcache : vm.clean_cache = false)
    (l : List (Nat × Nat)) :
    (touchGo vm src l).fst = .ok () ↔ ∀ p ∈ l, src.readLen p.1 p.2 = p.2 := by
  induction l with
  | nil => simp [touchGo]
  | cons p rest ih =>
    obtain ⟨off, sz⟩ := p
    by_cases hr : src.readLen off sz = sz
    · simp [touchGo, guestWriteStep_ok vm src off sz hcache hr, ih, hr]
    · simp [touchGo, guestWriteStep_short vm src off sz hr, hr]

lemma touchGo_first_error (vm : VM) (src : ByteSource)
    (hcache : vm.clean_cache = false) (l : List (Nat × Nat))
    (hex : ¬ ∀ p ∈ l, src.readLen p.1 p.2 = p.2) :
    (touchGo vm src l).fst = .error .TruncatedRead := by
  induction l with
  | nil => simp at hex
  | cons p rest ih =>
    obtain ⟨off, sz⟩ := p
    by_cases hr : src.readLen off sz = sz
    · simp only [List.forall_mem_cons, hr, true_and] at hex
      simp [touchGo, guestWriteStep_ok vm src off sz hcache hr, ih hex]
    · simp [touchGo, guestWriteStep_short vm src off sz hr]

lemma touchGo_reads_prefix (vm : VM) (src : ByteSource)
    (hcache : vm.clean_cache = false) (l : List (Nat × Nat)) :
    ∃ rest, l = readEvents (touchGo vm src l).snd ++ rest := by
  induction l with
  | nil => exact ⟨[], by simp [touchGo, readEvents]⟩
  | cons p rest ih =>
    obtain ⟨off, sz⟩ := p
    by_cases hr : src.readLen off sz = sz
    · obtain ⟨r2, hr2⟩ := ih
      refine ⟨r2, ?_⟩
      simp only [touchGo, guestWriteStep_ok vm src off sz hcache hr, readEvents,
        List.filterMap_append, List.filterMap_cons, List.filterMap_nil] at hr2 ⊢
      simpa using congrArg (List.cons (off, sz)) hr2
    · refine ⟨rest, ?_⟩
      simp [touchGo, guestWriteStep_short vm src off sz hr, readEvents]

lemma load_image_eval (vm : VM) (src : ByteSource) (addr : Nat)
    (hopen : src.openOk = true) (hpos : 0 < src.size)
    (hdefer : vm.deferConfig = true → vm.deferOk = true) :
    load_image vm src addr =
      ((match (vm_ram_touch vm src addr src.size).fst with
        | .error e => .error e
        | .ok _ => .ok src.size),
       [Ev.openEv,
        Ev.markAllocated addr (ROUND_UP src.size PAGE_SIZE_4K) vm.allocOk] ++
         (if vm.deferConfig then [Ev.mapDeferred addr src.size] else []) ++
         (vm_ram_touch vm src addr src.size).snd ++ [Ev.closeEv]) := by
  have hnz : ¬ src.size = 0 := by omega
  have hguard : (vm.deferConfig && !vm.deferOk) = false := by
    cases hd : vm.deferConfig
    · simp
    · simp [hdefer hd]
  simp [load_image, hopen, hnz, hguard]

/-- C4: for a non-empty artifact (benign external collaborators: open
succeeds, deferred mapping does not fail, cache maintenance off, and
reads never return more than requested), the streaming load succeeds
reporting the full size exactly when every per-chunk read returns the
requested byte count; a short read on any chunk makes it fail with
`TruncatedRead` (so no `LoadResult` is produced, the result being an
error); and the sequence of chunk reads actually issued is a prefix of
the chunk sequence — each chunk is read at most once, never retried. -/
theorem stream_load_iff_exact_reads (vm : VM) (src : ByteSource) (addr : Nat)
    (hopen : src.openOk = true) (hpos : 0 < src.size)
    (hcache : vm.clean_cache = false)
    (hdefer : vm.deferConfig = true → vm.deferOk = true)
    (hle : ∀ off req, src.readLen off req ≤ req) :
    ((load_image vm src addr).fst = .ok src.size ↔
      ∀ p ∈ chunkList 0 src.size (PAGE_SIZE_4K - addr % PAGE_SIZE_4K),
        src.readLen p.1 p.2 = p.2) ∧
    ((∃ p ∈ chunkList 0 src.size (PAGE_SIZE_4K - addr % PAGE_SIZE_4K),
        src.readLen p.1 p.2 < p.2) →
      (load_image vm src addr).fst = .error .TruncatedRead) ∧
    (∃ rest, chunkList 0 src.size (PAGE_SIZE_4K - addr % PAGE_SIZE_4K) =
      readEvents (load_image vm src addr).snd ++ rest) := by
  have hvt : vm_ram_touch vm src addr src.size =
      touchGo vm src (chunkList 0 src.size (PAGE_SIZE_4K - addr % PAGE_SIZE_4K)) := rfl
  have hok := touchGo_ok_iff vm src hcache
    (chunkList 0 src.size (PAGE_SIZE_4K - addr % PAGE_SIZE_4K))
  rw [load_image_eval vm src addr hopen hpos hdefer]
  refine ⟨?_, ?_, ?_⟩
  · constructor
    · intro hres
      apply hok.mp
      rw [← hvt]
      cases ht : (vm_ram_touch vm src addr src.size).fst with
      | error e => rw [ht] at hres; simp at hres
      | ok u => cases u; rfl
    · intro hall
      have := hok.mpr hall
      rw [← hvt] at this
      rw [this]
  · rintro ⟨p, hp, hlt⟩
    have hne : ¬ ∀ q ∈ chunkList 0 src.size (PAGE_SIZE_4K - addr % PAGE_SIZE_4K),
        src.readLen q.1 q.2 = q.2 :=
      fun hall => absurd (hall p hp) (Nat.ne_of_lt hlt)
    have herr := touchGo_first_error vm src hcache _ hne
    rw [← hvt] at herr
    rw [herr]
  · obtain ⟨rest, hres⟩ := touchGo_reads_prefix vm src hcache
      (chunkList 0 src.size (PAGE_SIZE_4K - addr % PAGE_SIZE_4K))
    refine ⟨rest, ?_⟩
    rw [← hvt] at hres
    have htr : readEvents
        ([Ev.openEv,
          Ev.markAllocated addr (ROUND_UP src.size PAGE_SIZE_4K) vm.allocOk] ++
          (if vm.deferConfig then [Ev.mapDeferred addr src.size] else []) ++
          (vm_ram_touch vm src addr src.size).snd ++ [Ev.closeEv]) =
        readEvents (vm_ram_touch vm src addr src.size).snd := by
      cases vm.deferConfig <;>
        simp [readEvents, List.filterMap_append]
    rw [htr]
    exact hres

/-- Witness for C4: the 100-byte artifact behind an honest file loads in
full, every chunk read being exact. -/
theorem stream_load_iff_exact_reads_witness :
    (load_image vmW srcW 0).fst = .ok srcW.size :=
  (stream_load_iff_exact_reads vmW srcW 0 rfl (by decide) rfl (fun _ => rfl)
      (fun off req => Nat.min_le_left _ _)).1.mpr (by decide)

/-! ## C6: allocation request ordering and its ignored result -/

/-- Counterexample to C6 as stated: with the external allocation request
failing (the `markAllocated` event carries the manager's reply `false`),
the load does not fail — it proceeds to read every chunk and returns
success. -/
theorem alloc_failure_ignored_cex :
    (load_image vmAllocFail srcW 0).fst = .ok 100 ∧
    Ev.markAllocated 0 4096 false ∈ (load_image vmAllocFail srcW 0).snd ∧
    Ev.readChunk 0 100 100 ∈ (load_image vmAllocFail srcW 0).snd := by
  refine ⟨rfl, ?_, ?_⟩ <;> decide

lemma touchGo_allocOk_irrel (vm : VM) (b : Bool) (src : ByteSource)
    (l : List (Nat × Nat)) :
    touchGo { vm with allocOk := b } src l = touchGo vm src l := by
  induction l with
  | nil => rfl
  | cons p rest ih =>
    obtain ⟨off, sz⟩ := p
    have hstep : guestWriteStep { vm with allocOk := b } src off sz =
        guestWriteStep vm src off sz := rfl
    cases h : guestWriteStep vm src off sz with
    | mk e evs =>
      cases e with
      | error err => simp [touchGo, hstep, h]
      | ok u => simp [touchGo, hstep, h, ih]

lemma vm_ram_touch_allocOk_irrel (vm : VM) (b : Bool) (src : ByteSource)
    (addr size : Nat) :
    vm_ram_touch { vm with allocOk := b } src addr size =
      vm_ram_touch vm src addr size :=
  touchGo_allocOk_irrel vm b src _

/-- C6 amended: for every non-empty artifact, the request to mark the
guest-physical range `[load_addr, load_addr + round_up(size, 4096))`
allocated is issued immediately after the open and before any chunk is
read or written — but the request's result is ignored by the code, so
the outcome of the load is identical whether the external allocation
request succeeds or fails. -/
theorem alloc_request_before_writes_result_ignored (vm : VM) (src : ByteSource)
    (addr : Nat) (hopen : src.openOk = true) (hpos : 0 < src.size) :
    (∃ rest, (load_image vm src addr).snd =
      Ev.openEv ::
        Ev.markAllocated addr (ROUND_UP src.size PAGE_SIZE_4K) vm.allocOk :: rest) ∧
    (∀ b1 b2 : Bool,
      (load_image { vm with allocOk := b1 } src addr).fst =
      (load_image { vm with allocOk := b2 } src addr).fst) := by
  have hnz : ¬ src.size = 0 := by omega
  constructor
  · by_cases hg : (vm.deferConfig && !vm.deferOk) = true
    · refine ⟨[Ev.mapDeferred addr src.size], ?_⟩
      simp [load_image, hopen, hnz, hg]
    · refine ⟨(if vm.deferConfig then [Ev.mapDeferred addr src.size] else []) ++
        (vm_ram_touch vm src addr src.size).snd ++ [Ev.closeEv], ?_⟩
      simp [load_image, hopen, hnz, hg]
  · intro b1 b2
    have h1 := vm_ram_touch_allocOk_irrel vm b1 src addr src.size
    have h2 := vm_ram_touch_allocOk_irrel vm b2 src addr src.size
    simp only [load_image, h1, h2]
    split_ifs <;> rfl

/-- Witness for the amended C6 at the concrete benign load. -/
theorem alloc_request_before_writes_result_ignored_witness :
    ∃ rest, (load_image vmW srcW 0).snd =
      Ev.openEv ::
        Ev.markAllocated 0 (ROUND_UP srcW.size PAGE_SIZE_4K) vmW.allocOk :: rest :=
  (alloc_request_before_writes_result_ignored vmW srcW 0 rfl (by decide)).1

end GuestImage
